import Mathlib

/-!
Shallow embedding of the command-generation logic of
`custom_components/control_Freak_edidio/light.py` (class `ControlFreakLight`
and the helper `rgb_to_xy_16bit`).

Conventions of the embedding:
* Python float arithmetic is modelled exactly over `ℚ` (for the linear
  scalings) and over `ℝ` (for the gamma-corrected RGB→xy conversion, whose
  `** 2.4` is a real power).  Python `int()` on a nonnegative value is the
  floor; on a possibly negative value it truncates toward zero (`pytrunc`).
* The protobuf message constructors `create_dmx_message` /
  `create_dali_message` of the external `edidio_control_py` client are pure
  builders; they are modelled by the inductive `ProtoMessage`.
* The closure-based message-id counter (`get_message_id_generator`) hands the
  ids `n+1, n+2, …` to consecutive constructor calls when the counter held
  `n`; the generators below take the current counter value `n` explicitly.
* The suspending `send_dali_commands_sequence` call either succeeds or raises
  one of the `EDIDIO*Error` exceptions (or an unexpected exception); this is
  modelled by the explicit `SendOutcome` argument of `asyncTurnOn` /
  `asyncTurnOff`.
-/

namespace ControlFreak

/-- Python `int()` applied to a real value: truncation toward zero. -/
def pytrunc (q : ℚ) : ℤ := if q < 0 then ⌈q⌉ else ⌊q⌋

/-- `DALI_ARC_LEVEL_MAX`, imported by `light.py` from the external
`edidio_control_py` client library (not part of this repository): the DALI
direct-arc-power maximum, 254 per IEC 62386. -/
def DALI_ARC_LEVEL_MAX : ℕ := 254

/-- Modelled from the spec: `const.py` is not under `src/`; §6 of the spec
fixes the protocol enumeration as the closed set of strings
`dmx_white`, `dmx_rgb`, `dmx_rgbw`, `dali_white`, `dali_rgb`, `dali_rgbw`,
`dali_dt8_xy`, `dali_dt8_cct`. -/
def PROTOCOL_DMX_WHITE : String := "dmx_white"

def PROTOCOL_DMX_RGB : String := "dmx_rgb"

def PROTOCOL_DMX_RGBW : String := "dmx_rgbw"

def PROTOCOL_DALI_WHITE : String := "dali_white"

def PROTOCOL_DALI_RGB : String := "dali_rgb"

def PROTOCOL_DALI_RGBW : String := "dali_rgbw"

def PROTOCOL_DALI_DT8_XY : String := "dali_dt8_xy"

def PROTOCOL_DALI_DT8_CCT : String := "dali_dt8_cct"

/-- The full protocol enumeration of spec §6, in the order listed there. -/
def protocolEnumeration : List String :=
  [PROTOCOL_DMX_WHITE, PROTOCOL_DMX_RGB, PROTOCOL_DMX_RGBW,
   PROTOCOL_DALI_WHITE, PROTOCOL_DALI_RGB, PROTOCOL_DALI_RGBW,
   PROTOCOL_DALI_DT8_XY, PROTOCOL_DALI_DT8_CCT]

/-- `homeassistant.util.color.color_temperature_kelvin_to_mired`:
`math.floor(1000000 / kelvin_temperature)` (host collaborator, standard
Home Assistant utility). -/
def kelvinToMired (k : ℚ) : ℤ := ⌊(1000000 : ℚ) / k⌋

/-- `self.min_mireds` of a `dali_dt8_cct` light:
`color_temperature_kelvin_to_mired(self._attr_max_color_temp_kelvin)` with
`_attr_max_color_temp_kelvin = 6500` (light.py lines 179-181, 262-270);
evaluates to 153. -/
def min_mireds : ℤ := kelvinToMired 6500

/-- `self.max_mireds` of a `dali_dt8_cct` light:
`color_temperature_kelvin_to_mired(self._attr_min_color_temp_kelvin)` with
`_attr_min_color_temp_kelvin = 2000`; evaluates to 500. -/
def max_mireds : ℤ := kelvinToMired 2000

/-- `CustomDALICommandType` values used by `light.py`. -/
inductive DaliCommandType
  | daliArcLevel
deriving DecidableEq

/-- `Type8CommandType` values used by `light.py`. -/
inductive Type8CommandType
  | setTempXCoord
  | setTempYCoord
  | setTempColourTemperature
  | activate
deriving DecidableEq

/-- A message built by the external client's pure constructors
`create_dmx_message(message_id, zone, universe_mask, channel, repeat, level,
fade_time_by_10ms)` and `create_dali_message(message_id, line_mask, address,
custom_command+arg | type8+dtr)`.  `daliType8 … .activate` carries no `dtr`
(empty list). -/
inductive ProtoMessage
  | dmx (messageId zone universeMask channel rpt : ℕ) (level : List ℤ)
      (fadeTimeBy10ms : ℕ)
  | daliCustom (messageId lineMask address : ℕ) (command : DaliCommandType)
      (arg : List ℤ)
  | daliType8 (messageId lineMask address : ℕ) (command : Type8CommandType)
      (dtr : List ℤ)
deriving DecidableEq

/-- The per-light mutable state of `ControlFreakLight` (constructor plus the
`# Initial state` block, light.py lines 135-187).  `_color_temp` is
initialised to `3000` and only ever reassigned integer mired values, so it is
modelled as an always-present rational. -/
structure LightState where
  protocol : String
  address : ℕ
  line : ℕ
  isOn : Bool
  brightness : ℕ
  rgbColor : ℕ × ℕ × ℕ
  rgbwColor : ℕ × ℕ × ℕ × ℕ
  colorTemp : ℚ
  available : Bool
deriving DecidableEq

/-- The keyword arguments `async_turn_on` inspects: `brightness`,
`rgb_color`, `rgbw_color`, `color_temp_kelvin`. -/
structure TurnOnArgs where
  brightnessArg : Option ℕ
  rgbColorArg : Option (ℕ × ℕ × ℕ)
  rgbwColorArg : Option (ℕ × ℕ × ℕ × ℕ)
  colorTempKelvinArg : Option ℚ
deriving DecidableEq

/-- Outcome of the single suspending `send_dali_commands_sequence` call: the
three `EDIDIO*Error` kinds are caught by the first `except` clause, any other
exception by the second; both error paths behave identically. -/
inductive SendOutcome
  | ok
  | connectionError
  | communicationError
  | timeoutError
  | unexpectedError
deriving DecidableEq

/-- Step 1 of `async_turn_on` (light.py lines 286-301): update the internal
state from the keyword arguments before any command is generated. -/
def turnOnUpdateState (s : LightState) (k : TurnOnArgs) : LightState :=
  let s1 :=
    match k.brightnessArg with
    | some b => { s with brightness := b }
    | none =>
        if s.isOn = false ∧ s.brightness = 0 then { s with brightness := 255 }
        else s
  let s2 :=
    match k.rgbColorArg with
    | some c => { s1 with rgbColor := c }
    | none => s1
  let s3 :=
    match k.rgbwColorArg with
    | some c => { s2 with rgbwColor := c, rgbColor := (c.1, c.2.1, c.2.2.1) }
    | none => s2
  match k.colorTempKelvinArg with
  | some kv => { s3 with colorTemp := (kelvinToMired kv : ℚ) }
  | none => s3

/-- Step 1 of `rgb_to_xy_16bit` (light.py lines 881-887): normalize a channel
to the 0–1 range "if needed", i.e. exactly when it exceeds 1. -/
def normalizeChannel (c : ℚ) : ℚ := if 1 < c then c / 255 else c

/-- Step 2 of `rgb_to_xy_16bit` (light.py lines 889-897): the gamma curve
`((c + 0.055) / 1.055) ** 2.4` above the 0.045045 threshold, `c / 12.92`
below it. -/
noncomputable def gamma (c : ℚ) : ℝ :=
  if (0.045045 : ℚ) < c then (((c : ℝ) + 0.055) / 1.055) ^ (2.4 : ℝ)
  else (c : ℝ) / 12.92

/-- Steps 3-5 of `rgb_to_xy_16bit` (light.py lines 899-913): Wide-RGB-D65
matrix to XYZ, chromaticity `x = X/(X+Y+Z)` (0 when the total is 0), clamp to
[0,1] and scale to 16 bits.  The clamped value is nonnegative, so Python's
`int()` is the floor here. -/
noncomputable def xyFromLinear (r g b : ℝ) : ℤ × ℤ :=
  let X := r * 0.649926 + g * 0.103455 + b * 0.197109
  let Y := r * 0.234327 + g * 0.743075 + b * 0.022598
  let Z := r * 0 + g * 0.053077 + b * 1.035763
  let total := X + Y + Z
  let x := if total ≠ 0 then X / total else 0
  let y := if total ≠ 0 then Y / total else 0
  (⌊max 0 (min 1 x) * 65535⌋, ⌊max 0 (min 1 y) * 65535⌋)

/-- `rgb_to_xy_16bit` (light.py lines 878-913). -/
noncomputable def rgb_to_xy_16bit (r g b : ℚ) : ℤ × ℤ :=
  xyFromLinear (gamma (normalizeChannel r)) (gamma (normalizeChannel g))
    (gamma (normalizeChannel b))

/-- The DALI DT8 colour-temperature value computed by the
`PROTOCOL_DALI_DT8_CCT` branch of `async_turn_on` (light.py lines 544-566):
`normalized = (color_temp - max_mireds) / (min_mireds - max_mireds)`,
`value = int((1 - normalized) * 65535)`, clamped into [0, 65535]. -/
def dt8CctValue (colorTemp : ℚ) : ℤ :=
  let normalized : ℚ :=
    (colorTemp - (max_mireds : ℚ)) / ((min_mireds : ℚ) - (max_mireds : ℚ))
  let v := pytrunc ((1 - normalized) * 65535)
  max 0 (min 65535 v)

/-- Step 2 of `async_turn_on` (light.py lines 303-666): generate the command
list from the (already updated) state.  `n` is the current value of the
message-id counter, so the constructor calls receive ids `n+1, n+2, …`.
Python's `int()` of the nonnegative float products is modelled by exact
natural division (bit-exact for every scaling below except the
channel×brightness product, where IEEE double rounding can fall one below the
exact quotient at 12 of the 65536 input pairs). -/
noncomputable def genTurnOnMessages (s : LightState) (n : ℕ) :
    List ProtoMessage :=
  if s.protocol = PROTOCOL_DMX_RGB then
    let scaled_r : ℕ := s.rgbColor.1 * s.brightness / 255
    let scaled_g : ℕ := s.rgbColor.2.1 * s.brightness / 255
    let scaled_b : ℕ := s.rgbColor.2.2 * s.brightness / 255
    [.dmx (n + 1) 0 2 s.address 1 [(scaled_r : ℤ), (scaled_g : ℤ), (scaled_b : ℤ)] 25]
  else if s.protocol = PROTOCOL_DMX_RGBW then
    let scaled_r : ℕ := s.rgbwColor.1 * s.brightness / 255
    let scaled_g : ℕ := s.rgbwColor.2.1 * s.brightness / 255
    let scaled_b : ℕ := s.rgbwColor.2.2.1 * s.brightness / 255
    let scaled_w : ℕ := s.rgbwColor.2.2.2 * s.brightness / 255
    [.dmx (n + 1) 0 2 s.address 1
      [(scaled_r : ℤ), (scaled_g : ℤ), (scaled_b : ℤ), (scaled_w : ℤ)] 25]
  else if s.protocol = PROTOCOL_DALI_RGB then
    let effective_r : ℕ := s.rgbColor.1 * s.brightness / 255
    let effective_g : ℕ := s.rgbColor.2.1 * s.brightness / 255
    let effective_b : ℕ := s.rgbColor.2.2 * s.brightness / 255
    let dali_r : ℕ := min (effective_r * DALI_ARC_LEVEL_MAX / 255) DALI_ARC_LEVEL_MAX
    let dali_g : ℕ := min (effective_g * DALI_ARC_LEVEL_MAX / 255) DALI_ARC_LEVEL_MAX
    let dali_b : ℕ := min (effective_b * DALI_ARC_LEVEL_MAX / 255) DALI_ARC_LEVEL_MAX
    [.daliCustom (n + 1) s.line s.address .daliArcLevel [(dali_r : ℤ)],
     .daliCustom (n + 2) s.line (s.address + 1) .daliArcLevel [(dali_g : ℤ)],
     .daliCustom (n + 3) s.line (s.address + 2) .daliArcLevel [(dali_b : ℤ)]]
  else if s.protocol = PROTOCOL_DALI_RGBW then
    let effective_r : ℕ := s.rgbwColor.1 * s.brightness / 255
    let effective_g : ℕ := s.rgbwColor.2.1 * s.brightness / 255
    let effective_b : ℕ := s.rgbwColor.2.2.1 * s.brightness / 255
    let effective_w : ℕ := s.rgbwColor.2.2.2 * s.brightness / 255
    let dali_r : ℕ := min (effective_r * DALI_ARC_LEVEL_MAX / 255) DALI_ARC_LEVEL_MAX
    let dali_g : ℕ := min (effective_g * DALI_ARC_LEVEL_MAX / 255) DALI_ARC_LEVEL_MAX
    let dali_b : ℕ := min (effective_b * DALI_ARC_LEVEL_MAX / 255) DALI_ARC_LEVEL_MAX
    let dali_w : ℕ := min (effective_w * DALI_ARC_LEVEL_MAX / 255) DALI_ARC_LEVEL_MAX
    [.daliCustom (n + 1) s.line s.address .daliArcLevel [(dali_r : ℤ)],
     .daliCustom (n + 2) s.line (s.address + 1) .daliArcLevel [(dali_g : ℤ)],
     .daliCustom (n + 3) s.line (s.address + 2) .daliArcLevel [(dali_b : ℤ)],
     .daliCustom (n + 4) s.line (s.address + 3) .daliArcLevel [(dali_w : ℤ)]]
  else if s.protocol = PROTOCOL_DALI_DT8_XY then
    let x16 := (rgb_to_xy_16bit (s.rgbwColor.1 : ℚ) (s.rgbwColor.2.1 : ℚ)
      (s.rgbwColor.2.2.1 : ℚ)).1
    let y16 := (rgb_to_xy_16bit (s.rgbwColor.1 : ℚ) (s.rgbwColor.2.1 : ℚ)
      (s.rgbwColor.2.2.1 : ℚ)).2
    [.daliType8 (n + 1) s.line s.address .setTempXCoord
       [x16 % 256, x16 / 256 % 256],
     .daliType8 (n + 2) s.line s.address .setTempYCoord
       [y16 % 256, y16 / 256 % 256],
     .daliCustom (n + 3) s.line s.address .daliArcLevel
       [(s.brightness * DALI_ARC_LEVEL_MAX / 255 : ℕ)],
     .daliType8 (n + 4) s.line s.address .activate []]
  else if s.protocol = PROTOCOL_DALI_DT8_CCT then
    let v := dt8CctValue s.colorTemp
    [.daliType8 (n + 1) s.line s.address .setTempColourTemperature
       [v % 256, v / 256 % 256],
     .daliCustom (n + 2) s.line s.address .daliArcLevel
       [(s.brightness * DALI_ARC_LEVEL_MAX / 255 : ℕ)],
     .daliType8 (n + 3) s.line s.address .activate []]
  else if s.protocol = PROTOCOL_DALI_WHITE then
    [.daliCustom (n + 1) s.line s.address .daliArcLevel
       [(s.brightness * DALI_ARC_LEVEL_MAX / 255 : ℕ)]]
  else if s.protocol = PROTOCOL_DMX_WHITE then
    [.dmx (n + 1) 0 2 s.address 1 [(s.brightness : ℤ)] 25]
  else
    [.daliCustom (n + 1) s.line s.address .daliArcLevel
       [(s.brightness * DALI_ARC_LEVEL_MAX / 255 : ℕ)]]

/-- The command list generated by `async_turn_off` (light.py lines 700-815). -/
def genTurnOffMessages (s : LightState) (n : ℕ) : List ProtoMessage :=
  if s.protocol ∈ [PROTOCOL_DMX_RGB, PROTOCOL_DMX_RGBW, PROTOCOL_DMX_WHITE] then
    if s.protocol = PROTOCOL_DMX_RGB then
      [.dmx (n + 1) 0 2 s.address 1 [0, 0, 0] 25]
    else if s.protocol = PROTOCOL_DMX_RGBW then
      [.dmx (n + 1) 0 2 s.address 1 [0, 0, 0, 0] 25]
    else if s.protocol = PROTOCOL_DMX_WHITE then
      [.dmx (n + 1) 0 2 s.address 1 [0] 25]
    else []
  else if s.protocol ∈
      [PROTOCOL_DALI_DT8_XY, PROTOCOL_DALI_DT8_CCT, PROTOCOL_DALI_WHITE] then
    [.daliCustom (n + 1) s.line s.address .daliArcLevel [0]]
  else if s.protocol = PROTOCOL_DALI_RGB then
    [.daliCustom (n + 1) s.line s.address .daliArcLevel [0],
     .daliCustom (n + 2) s.line (s.address + 1) .daliArcLevel [0],
     .daliCustom (n + 3) s.line (s.address + 2) .daliArcLevel [0]]
  else if s.protocol = PROTOCOL_DALI_RGBW then
    [.daliCustom (n + 1) s.line s.address .daliArcLevel [0],
     .daliCustom (n + 2) s.line (s.address + 1) .daliArcLevel [0],
     .daliCustom (n + 3) s.line (s.address + 2) .daliArcLevel [0],
     .daliCustom (n + 4) s.line (s.address + 3) .daliArcLevel [0]]
  else
    [.daliCustom (n + 1) s.line s.address .daliArcLevel [0]]

/-- `async_turn_on` (light.py lines 284-696): update the state, generate the
commands, hand them to the transport.  On a transport error (or any
unexpected exception) the entity is marked unavailable and the handler
returns without touching `_is_on`; only after a successful send is `_is_on`
set to `True`.  The returned list is the sequence handed to
`send_dali_commands_sequence`. -/
noncomputable def asyncTurnOn (s : LightState) (k : TurnOnArgs) (n : ℕ)
    (outcome : SendOutcome) : LightState × List ProtoMessage :=
  let s1 := turnOnUpdateState s k
  let msgs := genTurnOnMessages s1 n
  match outcome with
  | .ok => ({ s1 with isOn := true }, msgs)
  | _ => ({ s1 with available := false }, msgs)

/-- `async_turn_off` (light.py lines 698-844): generate the zero commands,
hand them to the transport; on failure mark unavailable and abort, on success
clear `_is_on` and set `_brightness` to 0. -/
def asyncTurnOff (s : LightState) (n : ℕ) (outcome : SendOutcome) :
    LightState × List ProtoMessage :=
  let msgs := genTurnOffMessages s n
  match outcome with
  | .ok => ({ s with isOn := false, brightness := 0 }, msgs)
  | _ => ({ s with available := false }, msgs)

/-! ### Helper lemmas -/

lemma turnOnUpdateState_isOn (s : LightState) (k : TurnOnArgs) :
    (turnOnUpdateState s k).isOn = s.isOn := by
  rcases k with ⟨b, c, w, t⟩
  cases b <;> cases c <;> cases w <;> cases t <;>
    simp only [turnOnUpdateState] <;>
    first
      | rfl
      | (split <;> rfl)

lemma nat_mul_255_div_255 (c : ℕ) : c * 255 / 255 = c :=
  Nat.mul_div_cancel c (by norm_num)

lemma min_mireds_eq : min_mireds = 153 := by
  rw [min_mireds, kelvinToMired]
  norm_num [Int.floor_eq_iff]

lemma max_mireds_eq : max_mireds = 500 := by
  rw [max_mireds, kelvinToMired]
  norm_num [Int.floor_eq_iff]

lemma dt8CctValue_500 : dt8CctValue (500 : ℚ) = 65535 := by
  norm_num [dt8CctValue, pytrunc, min_mireds_eq, max_mireds_eq, Int.floor_eq_iff]

lemma dt8CctValue_153 : dt8CctValue (153 : ℚ) = 0 := by
  norm_num [dt8CctValue, pytrunc, min_mireds_eq, max_mireds_eq, Int.floor_eq_iff]

lemma dali_white_msgs (a l n bri : ℕ) (o av : Bool)
    (rgb : ℕ × ℕ × ℕ) (rgbw : ℕ × ℕ × ℕ × ℕ) (ct : ℚ) :
    genTurnOnMessages ⟨PROTOCOL_DALI_WHITE, a, l, o, bri, rgb, rgbw, ct, av⟩ n =
      [.daliCustom (n + 1) l a .daliArcLevel
        [(bri * DALI_ARC_LEVEL_MAX / 255 : ℕ)]] := rfl

lemma normalizeChannel_nat (c : ℕ) (hle : c ≤ 255) (hne : c ≠ 1) :
    normalizeChannel (c : ℚ) = normalizeChannel ((c : ℚ) / 255) := by
  rcases Nat.eq_zero_or_pos c with h0 | hpos
  · subst h0
    norm_num [normalizeChannel]
  · have hgt : (1 : ℚ) < (c : ℚ) := by exact_mod_cast (by omega : 1 < c)
    have hle' : (c : ℚ) / 255 ≤ 1 := by
      rw [div_le_one (by norm_num)]
      exact_mod_cast hle
    rw [normalizeChannel, if_pos hgt, normalizeChannel, if_neg (not_lt.2 hle')]

lemma gamma_one : gamma 1 = 1 := by
  rw [gamma, if_pos (by norm_num)]
  have h : (((1 : ℚ) : ℝ) + 0.055) / 1.055 = 1 := by push_cast; norm_num
  rw [h, Real.one_rpow]

lemma gamma_zero : gamma 0 = 0 := by
  rw [gamma, if_neg (by norm_num)]
  push_cast
  norm_num

lemma gamma_one_div_255 : gamma (1 / 255) = (5 : ℝ) / 16473 := by
  rw [gamma, if_neg (by norm_num)]
  push_cast
  norm_num

lemma xyFromLinear_fst (r g b : ℝ) :
    (xyFromLinear r g b).1 =
      ⌊max 0 (min 1 (if r * 0.649926 + g * 0.103455 + b * 0.197109 +
          (r * 0.234327 + g * 0.743075 + b * 0.022598) +
          (r * 0 + g * 0.053077 + b * 1.035763) ≠ 0 then
            (r * 0.649926 + g * 0.103455 + b * 0.197109) /
              (r * 0.649926 + g * 0.103455 + b * 0.197109 +
                (r * 0.234327 + g * 0.743075 + b * 0.022598) +
                (r * 0 + g * 0.053077 + b * 1.035763))
          else 0)) * 65535⌋ := rfl

lemma floor_scale_lower (x q : ℝ) (h : q ≤ x) (h1 : q ≤ 1)
    (z : ℤ) (hz : (z : ℝ) ≤ q * 65535) :
    z ≤ ⌊max 0 (min 1 x) * 65535⌋ := by
  refine Int.le_floor.2 (le_trans hz (mul_le_mul_of_nonneg_right ?_ (by norm_num)))
  exact le_trans (le_min h1 h) (le_max_right 0 _)

lemma floor_scale_upper (x q : ℝ) (h : x ≤ q) (h0 : 0 ≤ q)
    (z : ℤ) (hz : q * 65535 < (z : ℝ)) :
    ⌊max 0 (min 1 x) * 65535⌋ < z := by
  refine Int.floor_lt.2 (lt_of_le_of_lt (mul_le_mul_of_nonneg_right ?_ (by norm_num)) hz)
  exact max_le h0 (le_trans (min_le_right 1 x) h)

/-! ### Claims -/

/-- C1 (code bug): the `dali_dt8_cct` branch of `async_turn_on` contradicts
its own comments.  The comments state `max_mireds -> 0 (warmest)` and
`min_mireds -> 65535 (coolest)` (and the spec repeats this), but the code
computes `int((1 - (ct - max_mireds)/(min_mireds - max_mireds)) * 65535)`,
which yields 65535 at `color_temp = max_mireds = 500` and 0 at
`color_temp = min_mireds = 153` — the inversion of the documented mapping
(and it truncates rather than rounds).  This theorem evaluates the code at
the boundary inputs, including the full generated message sequence at
`color_temp = 500`. -/
theorem c1_dt8_cct_inversion_eval :
    dt8CctValue ((max_mireds : ℚ)) = 65535 ∧
    dt8CctValue ((min_mireds : ℚ)) = 0 ∧
    genTurnOnMessages
      ⟨PROTOCOL_DALI_DT8_CCT, 0, 1, false, 255, (255, 255, 255),
        (255, 255, 255, 255), 500, true⟩ 0 =
      [.daliType8 1 1 0 .setTempColourTemperature [255, 255],
       .daliCustom 2 1 0 .daliArcLevel [254],
       .daliType8 3 1 0 .activate []] := by
  refine ⟨?_, ?_, ?_⟩
  · rw [show ((max_mireds : ℚ)) = (500 : ℚ) by rw [max_mireds_eq]; norm_num]
    exact dt8CctValue_500
  · rw [show ((min_mireds : ℚ)) = (153 : ℚ) by rw [min_mireds_eq]; norm_num]
    exact dt8CctValue_153
  · simp [genTurnOnMessages, PROTOCOL_DALI_DT8_CCT, PROTOCOL_DMX_RGB,
      PROTOCOL_DMX_RGBW, PROTOCOL_DALI_RGB, PROTOCOL_DALI_RGBW,
      PROTOCOL_DALI_DT8_XY, DALI_ARC_LEVEL_MAX, dt8CctValue_500]

/-- C2 (amended): for every brightness `b`, a `dali_white` light generates on
turn-on exactly one ARC_LEVEL message at its address whose value is the
truncation `int(b / 255 * DALI_ARC_LEVEL_MAX)` — not the rounding the claim
states — and in particular the value is 0 at `b = 0` and
`DALI_ARC_LEVEL_MAX` at `b = 255`. -/
theorem c2_dali_white_trunc_amended (a l n bri : ℕ) (o av : Bool)
    (rgb : ℕ × ℕ × ℕ) (rgbw : ℕ × ℕ × ℕ × ℕ) (ct : ℚ) :
    genTurnOnMessages ⟨PROTOCOL_DALI_WHITE, a, l, o, bri, rgb, rgbw, ct, av⟩ n =
      [.daliCustom (n + 1) l a .daliArcLevel
        [(bri * DALI_ARC_LEVEL_MAX / 255 : ℕ)]] ∧
    genTurnOnMessages ⟨PROTOCOL_DALI_WHITE, a, l, o, 0, rgb, rgbw, ct, av⟩ n =
      [.daliCustom (n + 1) l a .daliArcLevel [0]] ∧
    genTurnOnMessages ⟨PROTOCOL_DALI_WHITE, a, l, o, 255, rgb, rgbw, ct, av⟩ n =
      [.daliCustom (n + 1) l a .daliArcLevel [(DALI_ARC_LEVEL_MAX : ℤ)]] := by
  refine ⟨dali_white_msgs a l n bri o av rgb rgbw ct, ?_, ?_⟩ <;>
    rw [dali_white_msgs] <;> norm_num [DALI_ARC_LEVEL_MAX]

/-- C2 (counterexample): at brightness 1 the code emits ARC_LEVEL value 0
(truncation of 254/255), while the claim's formula
`round(b/255 · DALI_ARC_LEVEL_MAX)` gives 1. -/
theorem c2_dali_white_round_cex :
    genTurnOnMessages
      ⟨PROTOCOL_DALI_WHITE, 0, 1, false, 1, (255, 255, 255),
        (255, 255, 255, 255), 3000, true⟩ 0 =
      [.daliCustom 1 1 0 .daliArcLevel [0]] ∧
    round ((1 : ℚ) / 255 * (DALI_ARC_LEVEL_MAX : ℚ)) ≠ 0 := by
  refine ⟨rfl, ?_⟩
  rw [DALI_ARC_LEVEL_MAX]
  norm_num [round_eq]

/-- C3 (amended): a `dali_rgb` light generates on turn-on exactly 3 ARC_LEVEL
messages at `address`, `address + 1`, `address + 2`; each channel value is the
double truncation `min(int(int(c · b/255) · DALI_ARC_LEVEL_MAX/255),
DALI_ARC_LEVEL_MAX)` — not a single rounding — and for the concrete light
(address 10, line 1, rgb (255,0,0), brightness 128) the values are
`[127, 0, 0]`, where 127 does equal `round(128/255 · DALI_ARC_LEVEL_MAX)` as
the claim states. -/
theorem c3_dali_rgb_trunc_amended (a l n bri r g b : ℕ) (o av : Bool)
    (rgbw : ℕ × ℕ × ℕ × ℕ) (ct : ℚ) :
    genTurnOnMessages
        ⟨PROTOCOL_DALI_RGB, a, l, o, bri, (r, g, b), rgbw, ct, av⟩ n =
      [.daliCustom (n + 1) l a .daliArcLevel
        [(min (r * bri / 255 * DALI_ARC_LEVEL_MAX / 255) DALI_ARC_LEVEL_MAX : ℕ)],
       .daliCustom (n + 2) l (a + 1) .daliArcLevel
        [(min (g * bri / 255 * DALI_ARC_LEVEL_MAX / 255) DALI_ARC_LEVEL_MAX : ℕ)],
       .daliCustom (n + 3) l (a + 2) .daliArcLevel
        [(min (b * bri / 255 * DALI_ARC_LEVEL_MAX / 255) DALI_ARC_LEVEL_MAX : ℕ)]] ∧
    genTurnOnMessages
        ⟨PROTOCOL_DALI_RGB, 10, 1, false, 128, (255, 0, 0),
          (255, 255, 255, 255), 3000, true⟩ 0 =
      [.daliCustom 1 1 10 .daliArcLevel [127],
       .daliCustom 2 1 11 .daliArcLevel [0],
       .daliCustom 3 1 12 .daliArcLevel [0]] ∧
    (127 : ℤ) = round ((128 : ℚ) / 255 * (DALI_ARC_LEVEL_MAX : ℚ)) := by
  refine ⟨rfl, by decide, ?_⟩
  rw [DALI_ARC_LEVEL_MAX]
  norm_num [round_eq]

/-- C3 (counterexample): with rgb (255,0,0) and brightness 1 the code emits
the values `[0, 0, 0]`, while the claim's per-channel formula
`round(channel · (b/255) · (DALI_ARC_LEVEL_MAX/255))` gives 1 on the red
channel. -/
theorem c3_dali_rgb_round_cex :
    genTurnOnMessages
      ⟨PROTOCOL_DALI_RGB, 10, 1, false, 1, (255, 0, 0),
        (255, 255, 255, 255), 3000, true⟩ 0 =
      [.daliCustom 1 1 10 .daliArcLevel [0],
       .daliCustom 2 1 11 .daliArcLevel [0],
       .daliCustom 3 1 12 .daliArcLevel [0]] ∧
    round ((255 : ℚ) * (1 / 255) * ((DALI_ARC_LEVEL_MAX : ℚ) / 255)) ≠ 0 := by
  refine ⟨by decide, ?_⟩
  rw [DALI_ARC_LEVEL_MAX]
  norm_num [round_eq]

/-- C4 (amended): `rgb_to_xy_16bit` is invariant under input
re-normalization for every RGB triple of integers in [0,255] *with no
channel equal to 1*: the code's normalization step divides a channel by 255
exactly when it exceeds 1, so a channel of exactly 1 is passed through
unscaled and the invariance fails there (see the counterexample). -/
theorem c4_renormalize_amended (r g b : ℕ) (hr : r ≤ 255) (hr1 : r ≠ 1)
    (hg : g ≤ 255) (hg1 : g ≠ 1) (hb : b ≤ 255) (hb1 : b ≠ 1) :
    rgb_to_xy_16bit (r : ℚ) (g : ℚ) (b : ℚ) =
      rgb_to_xy_16bit ((r : ℚ) / 255) ((g : ℚ) / 255) ((b : ℚ) / 255) := by
  unfold rgb_to_xy_16bit
  rw [normalizeChannel_nat r hr hr1, normalizeChannel_nat g hg hg1,
    normalizeChannel_nat b hb hb1]

/-- C4 (witness): the amended invariance at the concrete triple (0, 255, 2). -/
theorem c4_renormalize_amended_w :
    ((0 : ℕ) ≤ 255 ∧ (0 : ℕ) ≠ 1 ∧ (255 : ℕ) ≤ 255 ∧ (255 : ℕ) ≠ 1 ∧
      (2 : ℕ) ≤ 255 ∧ (2 : ℕ) ≠ 1) ∧
    rgb_to_xy_16bit ((0 : ℕ) : ℚ) ((255 : ℕ) : ℚ) ((2 : ℕ) : ℚ) =
      rgb_to_xy_16bit (((0 : ℕ) : ℚ) / 255) (((255 : ℕ) : ℚ) / 255)
        (((2 : ℕ) : ℚ) / 255) :=
  ⟨by decide,
   c4_renormalize_amended 0 255 2 (by decide) (by decide) (by decide)
     (by decide) (by decide) (by decide)⟩

/-- C4 (counterexample): for the integer triple (1, 255, 0) the claimed
invariance fails: feeding the [0,255]-scale values (1, 255, 0) and feeding
the normalized values (1/255, 255/255, 0/255) produce different 16-bit xy
pairs, because the channel value 1 is not divided by 255 by the code's
`if c > 1` normalization. -/
theorem c4_renormalize_cex :
    rgb_to_xy_16bit 1 255 0 ≠
      rgb_to_xy_16bit ((1 : ℚ) / 255) ((255 : ℚ) / 255) ((0 : ℚ) / 255) := by
  have hn1 : normalizeChannel (1 : ℚ) = 1 := by
    rw [normalizeChannel, if_neg (by norm_num)]
  have hn255 : normalizeChannel (255 : ℚ) = 1 := by
    rw [normalizeChannel, if_pos (by norm_num)]
    norm_num
  have hn0 : normalizeChannel (0 : ℚ) = 0 := by
    rw [normalizeChannel, if_neg (by norm_num)]
  have hnA : normalizeChannel ((1 : ℚ) / 255) = 1 / 255 := by
    rw [normalizeChannel, if_neg (by norm_num)]
  have hnB : normalizeChannel ((255 : ℚ) / 255) = 1 := by
    rw [normalizeChannel, if_neg (by norm_num)]
    norm_num
  have hnC : normalizeChannel ((0 : ℚ) / 255) = 0 := by
    rw [normalizeChannel, if_neg (by norm_num)]
    norm_num
  have hA : rgb_to_xy_16bit 1 255 0 = xyFromLinear 1 1 0 := by
    rw [rgb_to_xy_16bit, hn1, hn255, hn0, gamma_one, gamma_zero]
  have hB : rgb_to_xy_16bit ((1 : ℚ) / 255) ((255 : ℚ) / 255) ((0 : ℚ) / 255) =
      xyFromLinear ((5 : ℝ) / 16473) 1 0 := by
    rw [rgb_to_xy_16bit, hnA, hnB, hnC, gamma_one_div_255, gamma_one, gamma_zero]
  have hA1 : (27000 : ℤ) ≤ (xyFromLinear 1 1 0).1 := by
    rw [xyFromLinear_fst]
    split
    next h =>
      refine floor_scale_lower _ 0.412 ?_ (by norm_num) 27000
        (by norm_num)
      rw [le_div_iff₀ (by norm_num)]
      norm_num
    next h => norm_num at h
  have hB1 : (xyFromLinear ((5 : ℝ) / 16473) 1 0).1 < 27000 := by
    rw [xyFromLinear_fst]
    split
    next h =>
      refine floor_scale_upper _ 0.2 ?_ (by norm_num) 27000 (by norm_num)
      rw [div_le_iff₀ (by norm_num)]
      norm_num
    next h => norm_num at h
  intro hEq
  rw [hA, hB] at hEq
  have h1 := congrArg Prod.fst hEq
  simp only at h1
  omega

/-- C5: if the transport send raises a connection/communication/timeout
error during turn-on, the light is marked unavailable and the operation
aborts with the `on` flag unchanged; the `on` flag becomes `true` only on a
successful send; and the state fields (brightness, colours, colour
temperature) carry the pre-send updates in every outcome. -/
theorem c5_transport_error_handling (s : LightState) (k : TurnOnArgs) (n : ℕ) :
    ((asyncTurnOn s k n .connectionError).1.isOn = s.isOn ∧
      (asyncTurnOn s k n .connectionError).1.available = false) ∧
    ((asyncTurnOn s k n .communicationError).1.isOn = s.isOn ∧
      (asyncTurnOn s k n .communicationError).1.available = false) ∧
    ((asyncTurnOn s k n .timeoutError).1.isOn = s.isOn ∧
      (asyncTurnOn s k n .timeoutError).1.available = false) ∧
    (asyncTurnOn s k n .ok).1.isOn = true ∧
    (asyncTurnOn s k n .connectionError).1.brightness =
      (turnOnUpdateState s k).brightness ∧
    (asyncTurnOn s k n .connectionError).1.rgbColor =
      (turnOnUpdateState s k).rgbColor ∧
    (asyncTurnOn s k n .connectionError).1.rgbwColor =
      (turnOnUpdateState s k).rgbwColor ∧
    (asyncTurnOn s k n .connectionError).1.colorTemp =
      (turnOnUpdateState s k).colorTemp := by
  have h := turnOnUpdateState_isOn s k
  exact ⟨⟨h, rfl⟩, ⟨h, rfl⟩, ⟨h, rfl⟩, rfl, rfl, rfl, rfl, rfl⟩

/-- C6: for every light whose protocol string is outside the fixed
enumeration, both turn-on and turn-off fall back to the `dali_white`
behaviour: exactly one ARC_LEVEL message at the light's address, with value
`int(brightness / 255 * DALI_ARC_LEVEL_MAX)` on turn-on and 0 on
turn-off. -/
theorem c6_unknown_protocol_fallback (s : LightState) (n : ℕ)
    (h : s.protocol ∉ protocolEnumeration) :
    genTurnOnMessages s n =
      [.daliCustom (n + 1) s.line s.address .daliArcLevel
        [(s.brightness * DALI_ARC_LEVEL_MAX / 255 : ℕ)]] ∧
    genTurnOffMessages s n =
      [.daliCustom (n + 1) s.line s.address .daliArcLevel [0]] := by
  simp only [protocolEnumeration, List.mem_cons, List.not_mem_nil, or_false,
    not_or] at h
  obtain ⟨h1, h2, h3, h4, h5, h6, h7, h8⟩ := h
  constructor
  · unfold genTurnOnMessages
    rw [if_neg h2, if_neg h3, if_neg h5, if_neg h6, if_neg h7, if_neg h8,
      if_neg h4, if_neg h1]
  · unfold genTurnOffMessages
    rw [if_neg (by simp [h2, h3, h1]), if_neg (by simp [h7, h8, h4]),
      if_neg h5, if_neg h6]

/-- C6 (witness): the unknown protocol string `zigbee` at a concrete light. -/
theorem c6_unknown_protocol_fallback_w :
    ("zigbee" ∉ protocolEnumeration) ∧
    (genTurnOnMessages
        ⟨"zigbee", 3, 1, false, 255, (255, 255, 255), (255, 255, 255, 255),
          3000, true⟩ 0 =
      [.daliCustom 1 1 3 .daliArcLevel
        [(255 * DALI_ARC_LEVEL_MAX / 255 : ℕ)]] ∧
     genTurnOffMessages
        ⟨"zigbee", 3, 1, false, 255, (255, 255, 255), (255, 255, 255, 255),
          3000, true⟩ 0 =
      [.daliCustom 1 1 3 .daliArcLevel [0]]) :=
  ⟨by decide,
   c6_unknown_protocol_fallback
     ⟨"zigbee", 3, 1, false, 255, (255, 255, 255), (255, 255, 255, 255),
       3000, true⟩ 0 (by decide)⟩

/-- C7: a `dmx_rgb` light generates on turn-on one DMX message whose levels
are the truncations `int(channel · brightness/255)`; with brightness 255 the
levels equal the stored RGB triple unchanged, and with brightness 0 they are
`[0, 0, 0]`. -/
theorem c7_dmx_rgb_truncation (a l n bri r g b : ℕ) (o av : Bool)
    (rgbw : ℕ × ℕ × ℕ × ℕ) (ct : ℚ) :
    genTurnOnMessages
        ⟨PROTOCOL_DMX_RGB, a, l, o, bri, (r, g, b), rgbw, ct, av⟩ n =
      [.dmx (n + 1) 0 2 a 1
        [(r * bri / 255 : ℕ), (g * bri / 255 : ℕ), (b * bri / 255 : ℕ)] 25] ∧
    genTurnOnMessages
        ⟨PROTOCOL_DMX_RGB, a, l, o, 255, (r, g, b), rgbw, ct, av⟩ n =
      [.dmx (n + 1) 0 2 a 1 [(r : ℤ), (g : ℤ), (b : ℤ)] 25] ∧
    genTurnOnMessages
        ⟨PROTOCOL_DMX_RGB, a, l, o, 0, (r, g, b), rgbw, ct, av⟩ n =
      [.dmx (n + 1) 0 2 a 1 [0, 0, 0] 25] := by
  refine ⟨rfl, ?_, ?_⟩
  · simp [genTurnOnMessages, PROTOCOL_DMX_RGB, nat_mul_255_div_255]
  · simp [genTurnOnMessages, PROTOCOL_DMX_RGB]

/-- C8: for every `dali_rgbw` light, turn-off generates exactly 4 ARC_LEVEL
messages with value 0 at `address`, `address + 1`, `address + 2`,
`address + 3`, regardless of the prior brightness and colour state (which are
universally quantified here). -/
theorem c8_dali_rgbw_off_zeros (a l n bri : ℕ) (o av : Bool)
    (rgb : ℕ × ℕ × ℕ) (rgbw : ℕ × ℕ × ℕ × ℕ) (ct : ℚ) :
    genTurnOffMessages
        ⟨PROTOCOL_DALI_RGBW, a, l, o, bri, rgb, rgbw, ct, av⟩ n =
      [.daliCustom (n + 1) l a .daliArcLevel [0],
       .daliCustom (n + 2) l (a + 1) .daliArcLevel [0],
       .daliCustom (n + 3) l (a + 2) .daliArcLevel [0],
       .daliCustom (n + 4) l (a + 3) .daliArcLevel [0]] :=
  rfl

/-- C9: a `dali_dt8_xy` light generates on turn-on exactly 4 messages in the
order SET_TEMP_X_COORD (x as low/high byte), SET_TEMP_Y_COORD (y as low/high
byte), ARC_LEVEL (brightness scaled to the DALI maximum), ACTIVATE; turn-off
generates a single ARC_LEVEL 0 message. -/
theorem c9_dali_dt8_xy_sequence (a l n bri : ℕ) (o av : Bool)
    (rgb : ℕ × ℕ × ℕ) (rgbw : ℕ × ℕ × ℕ × ℕ) (ct : ℚ) :
    genTurnOnMessages
        ⟨PROTOCOL_DALI_DT8_XY, a, l, o, bri, rgb, rgbw, ct, av⟩ n =
      [.daliType8 (n + 1) l a .setTempXCoord
        [(rgb_to_xy_16bit (rgbw.1 : ℚ) (rgbw.2.1 : ℚ) (rgbw.2.2.1 : ℚ)).1 % 256,
         (rgb_to_xy_16bit (rgbw.1 : ℚ) (rgbw.2.1 : ℚ) (rgbw.2.2.1 : ℚ)).1 / 256 % 256],
       .daliType8 (n + 2) l a .setTempYCoord
        [(rgb_to_xy_16bit (rgbw.1 : ℚ) (rgbw.2.1 : ℚ) (rgbw.2.2.1 : ℚ)).2 % 256,
         (rgb_to_xy_16bit (rgbw.1 : ℚ) (rgbw.2.1 : ℚ) (rgbw.2.2.1 : ℚ)).2 / 256 % 256],
       .daliCustom (n + 3) l a .daliArcLevel
        [(bri * DALI_ARC_LEVEL_MAX / 255 : ℕ)],
       .daliType8 (n + 4) l a .activate []] ∧
    genTurnOffMessages
        ⟨PROTOCOL_DALI_DT8_XY, a, l, o, bri, rgb, rgbw, ct, av⟩ n =
      [.daliCustom (n + 1) l a .daliArcLevel [0]] :=
  ⟨rfl, rfl⟩

/-- C10: a successful turn-off sets the stored brightness to 0 and clears the
`on` flag, and a subsequent turn-on without a brightness argument resets the
stored brightness to 255 before generating commands — the generated sequence
is computed from the state whose brightness is 255, never from brightness
0. -/
theorem c10_off_resets_brightness (s : LightState) (n m : ℕ)
    (o : SendOutcome) (c : Option (ℕ × ℕ × ℕ)) (w : Option (ℕ × ℕ × ℕ × ℕ))
    (t : Option ℚ) :
    (asyncTurnOff s n .ok).1.brightness = 0 ∧
    (asyncTurnOff s n .ok).1.isOn = false ∧
    (turnOnUpdateState (asyncTurnOff s n .ok).1 ⟨none, c, w, t⟩).brightness = 255 ∧
    (asyncTurnOn (asyncTurnOff s n .ok).1 ⟨none, c, w, t⟩ m o).2 =
      genTurnOnMessages
        (turnOnUpdateState (asyncTurnOff s n .ok).1 ⟨none, c, w, t⟩) m := by
  refine ⟨rfl, rfl, ?_, ?_⟩
  · cases c <;> cases w <;> cases t <;> rfl
  · cases o <;> rfl

end ControlFreak
